import Mathlib

/-!
Shallow embedding of the Box authentication core of `authentication.py`
(repository `fairsailau/AI_clone`).

The embedding models:
* Streamlit secret values as an inductive `PyVal` (strings and dict-like
  mappings), with Python truthiness, `dict.get` lookup and raising `[]`
  indexing (`Except`);
* `check_secrets_available` (the credential validator);
* the session state `st.session_state` as a structure holding exactly the
  keys the authentication module reads and writes (`authenticated`,
  `client`, `user`, `access_token`, `refresh_token`, `auth_credentials`,
  `csrf_token`, `oauth`);
* `store_tokens`, the OAuth callback-URL processing of
  `oauth2_authentication_secrets` (lines 169-208), the JWT flow, the
  developer-token flow and the logout branch of `authenticate`;
* outcomes of the external Box SDK calls (`oauth.authenticate`,
  `client.user().get()`, `JWTAuth.from_settings_dictionary`) as oracles,
  with a trace of which capabilities were invoked.
-/

/-- A Python value as stored in Streamlit secrets: a string or a
dict-like mapping (insertion-ordered association list, unique keys in
practice; lookup takes the first match like Python does with unique
keys). -/
inductive PyVal where
  | str (s : String)
  | dict (entries : List (String × PyVal))

namespace PyVal

/-- `d.get(k)`: `some` value of the first entry named `k`, `none` when the
key is absent or the value is not a mapping. -/
def lookup : PyVal → String → Option PyVal
  | .dict es, k => (es.find? (fun e => e.1 = k)).map (fun e => e.2)
  | .str _, _ => none

/-- Python truthiness: the empty string and the empty dict are falsy. -/
def truthy : PyVal → Bool
  | .str s => !(s.isEmpty)
  | .dict es => !(es.isEmpty)

/-- `d[k]`: raising indexing; `KeyError` when the key is absent,
`TypeError` when the value is not a mapping. -/
def index : PyVal → String → Except String PyVal
  | .dict es, k =>
      match es.find? (fun e => e.1 = k) with
      | some e => .ok e.2
      | none => .error "KeyError"
  | .str _, _ => .error "TypeError"

/-- `k in d`: membership test of a dict key (False on a non-dict,
matching the guarded use `isinstance(current_level, dict) and part in
current_level` in the source). -/
def hasKey : PyVal → String → Bool
  | .dict es, k => es.any (fun e => e.1 = k)
  | .str _, _ => false

end PyVal

/-- Truthiness of an optional value, as Python reads
`if st.secrets.get(name):` — `None` (absent) is falsy. -/
def optTruthy : Option PyVal → Bool
  | none => false
  | some v => v.truthy

/-- One element of the `required_sections` argument of
`check_secrets_available`: either a plain key name (checked for truthy
presence) or a section name with a list of dotted key paths (the
single-key dict form used at every call site). -/
inductive ReqSection where
  | key (name : String)
  | sec (name : String) (keys : List String)

/-- The `for part in parts` walk of `check_secrets_available`
(lines 37-43): descend through nested mappings; a non-mapping level or
an absent part fails the walk. -/
def walkPath : PyVal → List String → Bool
  | _, [] => true
  | .dict es, p :: ps =>
      match es.find? (fun e => e.1 = p) with
      | some e => walkPath e.2 ps
      | none => false
  | .str _, _ :: _ => false

/-- Splitting on a dot, over the character list (same behaviour as
Python `key.split(".")` and as `String.splitOn "."`; written
structurally so that it computes by kernel reduction). -/
def splitDotsAux : List Char → List Char → List String
  | [], acc => [String.mk acc.reverse]
  | c :: cs, acc =>
      if c = '.' then String.mk acc.reverse :: splitDotsAux cs []
      else splitDotsAux cs (c :: acc)

/-- Python `key.split(".")` on the dotted key paths of
`check_secrets_available`. -/
def splitDots (key : String) : List String := splitDotsAux key.data []

/-- The human-readable identifier `check_secrets_available` appends for a
missing section. -/
def sectionId (name : String) : String := "Section '" ++ name ++ "'"

/-- The human-readable identifier `check_secrets_available` appends for an
unresolvable dotted key path. -/
def keyId (name key : String) : String := "'" ++ name ++ "." ++ key ++ "'"

/-- The missing identifiers one `required_sections` element contributes
(the body of the `for section in required_sections` loop,
lines 22-44). -/
def sectionMissing (secrets : PyVal) : ReqSection → List String
  | .key name => if optTruthy (secrets.lookup name) then [] else [name]
  | .sec name keys =>
      match secrets.lookup name with
      | none => [sectionId name]
      | some v =>
          if v.truthy then
            keys.foldl (fun acc key =>
              if walkPath v (splitDots key) then acc else acc ++ [keyId name key]) []
          else [sectionId name]

/-- `check_secrets_available(required_sections)` (lines 15-49): returns
`(ok, missing)`.  The secrets object is modelled as a `PyVal` mapping
(the `hasattr(st.secrets, "get")` guard is satisfied). -/
def check_secrets_available (secrets : PyVal) (required : List ReqSection) :
    Bool × List String :=
  let missing := required.foldl (fun acc sec => acc ++ sectionMissing secrets sec) []
  if missing.isEmpty then (true, []) else (false, missing)

/-- The walk of one dotted key path with raising indexing made explicit:
the membership guard is tested first and the subsequent `current_level[part]`
access is the raising `PyVal.index` (this is where a malformed structure
could, in principle, surface as an exception). -/
def walkPathE : PyVal → List String → Except String Bool
  | _, [] => .ok true
  | v, p :: ps =>
      if v.hasKey p then
        match v.index p with
        | .ok next => walkPathE next ps
        | .error e => .error e
      else .ok false

/-- The `for key in keys` loop of `check_secrets_available` with the
raising walk (`walkPathE`) made explicit; `missing` is the accumulator. -/
def checkKeysE (v : PyVal) (name : String) :
    List String → List String → Except String (List String)
  | [], missing => .ok missing
  | k :: ks, missing =>
      match walkPathE v (splitDots k) with
      | .error e => .error e
      | .ok true => checkKeysE v name ks missing
      | .ok false => checkKeysE v name ks (missing ++ [keyId name k])

/-- The `for section in required_sections` loop of
`check_secrets_available` with raising steps made explicit. -/
def checkSectionsE (secrets : PyVal) :
    List ReqSection → List String → Except String (List String)
  | [], missing => .ok missing
  | sec :: rest, missing =>
      match sec with
      | .key name =>
          checkSectionsE secrets rest
            (if optTruthy (secrets.lookup name) then missing else missing ++ [name])
      | .sec name keys =>
          match secrets.lookup name with
          | none => checkSectionsE secrets rest (missing ++ [sectionId name])
          | some v =>
              if v.truthy then
                match checkKeysE v name keys missing with
                | .error e => .error e
                | .ok missing2 => checkSectionsE secrets rest missing2
              else checkSectionsE secrets rest (missing ++ [sectionId name])

/-- `check_secrets_available` with every potentially raising step routed
through `Except`: an `.error` would mean the Python function raises. -/
def check_secrets_availableE (secrets : PyVal) (required : List ReqSection) :
    Except String (Bool × List String) :=
  match checkSectionsE secrets required [] with
  | .error e => .error e
  | .ok missing =>
      if missing.isEmpty then .ok (true, []) else .ok (false, missing)

/-- The Box identity returned by `client.user().get()` (only the `name`
attribute is read by the module). -/
structure Identity where
  name : String
deriving DecidableEq, Repr

/-- An opaque authenticated Box client handle (`Client(...)`). -/
inductive ClientHandle where
  | mk
deriving DecidableEq, Repr

/-- The keys of `st.session_state` that `authentication.py` reads or
writes.  `authenticated` is a `Bool` because the module only ever tests
it with `st.session_state.get("authenticated")`, where an absent key and
`False` behave alike; every other key is `Option` (absent = `none`).
`auth_credentials` is the dict stored under that key; `oauth` marks the
stored SDK object of line 155. -/
structure SessionState where
  authenticated : Bool
  client : Option ClientHandle
  user : Option Identity
  access_token : Option String
  refresh_token : Option String
  auth_credentials : Option (List (String × PyVal))
  csrf_token : Option String
  oauth : Bool

/-- A fresh Streamlit session: no keys set. -/
def initialSession : SessionState :=
  { authenticated := false, client := none, user := none, access_token := none,
    refresh_token := none, auth_credentials := none, csrf_token := none,
    oauth := false }

/-- Python truthiness of an optional string (`if refresh_token:` treats
`None` and the empty string as falsy). -/
def optStrTruthy : Option String → Bool
  | none => false
  | some s => !(s.isEmpty)

/-- Python dict assignment `d[k] = v`: update the first entry named `k`
in place, else append. -/
def dictSet (es : List (String × PyVal)) (k : String) (v : PyVal) :
    List (String × PyVal) :=
  if es.any (fun e => e.1 == k) then
    es.map (fun e => if e.1 == k then (k, v) else e)
  else es ++ [(k, v)]

/-- Python dict lookup on a stored credential dict. -/
def dictGet (es : List (String × PyVal)) (k : String) : Option PyVal :=
  (es.find? (fun e => e.1 == k)).map (fun e => e.2)

/-- The `try` block of `store_tokens` (lines 339-353): capture client id
and secret from the given secrets section.  Each `st.secrets[...]`
access is the raising `PyVal.index`; on an exception the partial
credential updates made so far are kept and the handler only logs —
modelled by returning the credentials accumulated up to the raise. -/
def captureFrom (secrets : PyVal) (sectName : String)
    (cred : List (String × PyVal)) : List (String × PyVal) :=
  match secrets.index sectName with
  | .error _ => cred
  | .ok sec =>
      match sec.index "client_id" with
      | .error _ => cred
      | .ok v1 =>
          let cred := dictSet cred "client_id" v1
          match sec.index "client_secret" with
          | .error _ => cred
          | .ok v2 => dictSet cred "client_secret" v2

/-- `store_tokens(access_token, refresh_token=None)` (lines 322-363):
records the tokens in `st.session_state` and in the
`auth_credentials` dict, captures client id/secret from whichever of
`box_oauth` / `box_dev` is configured (exceptions caught and logged),
and returns the token pair for the SDK. -/
def store_tokens (secrets : PyVal) (s : SessionState) (access_token : String)
    (refresh_token : Option String) : SessionState × (String × Option String) :=
  let s := { s with access_token := some access_token }
  let s := if optStrTruthy refresh_token then
      { s with refresh_token := refresh_token } else s
  let cred := match s.auth_credentials with | some c => c | none => []
  let cred :=
    if optTruthy (secrets.lookup "box_oauth") then captureFrom secrets "box_oauth" cred
    else if optTruthy (secrets.lookup "box_dev") then captureFrom secrets "box_dev" cred
    else cred
  let cred := dictSet cred "access_token" (.str access_token)
  let cred := if optStrTruthy refresh_token then
      dictSet cred "refresh_token" (.str (refresh_token.getD "")) else cred
  ({ s with auth_credentials := some cred }, (access_token, refresh_token))

/-- Outcomes of the external Box SDK capabilities for one attempt:
`exchange` is `oauth.authenticate(auth_code)` (token exchange),
`fetchUser` is `client.user().get()`, `jwtFromSettings` is
`JWTAuth.from_settings_dictionary`.  An `.error` is the call raising. -/
structure BoxOracle where
  exchange : String → Except String (String × Option String)
  fetchUser : Except String Identity
  jwtFromSettings : Except String Unit

/-- Observable invocations of the remote capabilities during callback
processing. -/
inductive Event where
  | exchangeCalled (code : String)
  | userFetchCalled
deriving DecidableEq, Repr

/-- `parse_qs` keeps, per key, the list of its non-blank values in
occurrence order (`keep_blank_values` defaults to False); the module
always reads index 0, i.e. the first non-blank value. -/
def firstParam (params : List (String × String)) (name : String) :
    Option String :=
  ((params.filter (fun p => p.1 == name && !(p.2.isEmpty))).head?).map
    (fun p => p.2)

/-- The CSRF test of line 180: `if not state or state !=
st.session_state.get("csrf_token")`. -/
def csrfMismatch (state : Option String) (csrf : Option String) : Bool :=
  match state with
  | none => true
  | some s => s.isEmpty || !(some s == csrf)

/-- What processing one pasted callback URL reports. -/
inductive CallbackOutcome where
  | noCode
  | csrfMismatch
  | exchangeError
  | identityError
  | success (who : Identity)
deriving DecidableEq, Repr

/-- Result of processing one pasted callback URL: the new session, the
reported outcome, and the trace of remote capabilities invoked. -/
structure CallbackResult where
  session : SessionState
  outcome : CallbackOutcome
  events : List Event

/-- Lines 169-208 of `oauth2_authentication_secrets`: parse the pasted
redirect URL (modelled by its decoded query-parameter list), require a
`code`, verify the `state` against the stored CSRF token, exchange the
code (the SDK invokes `store_tokens` on success), create the client,
fetch the current user, and mark the session authenticated.  Exceptions
from the exchange or the user fetch are caught at line 206, leaving the
session writes made so far in place. -/
def oauth2_complete_authorization (secrets : PyVal) (oracle : BoxOracle)
    (params : List (String × String)) (s : SessionState) : CallbackResult :=
  match firstParam params "code" with
  | none => ⟨s, .noCode, []⟩
  | some auth_code =>
      let state := firstParam params "state"
      if csrfMismatch state s.csrf_token then ⟨s, .csrfMismatch, []⟩
      else
        match oracle.exchange auth_code with
        | .error _ => ⟨s, .exchangeError, [.exchangeCalled auth_code]⟩
        | .ok (access_token, refresh_token) =>
            let s := (store_tokens secrets s access_token refresh_token).1
            match oracle.fetchUser with
            | .error _ => ⟨s, .identityError,
                [.exchangeCalled auth_code, .userFetchCalled]⟩
            | .ok who =>
                let s := { s with authenticated := true,
                                  client := some ClientHandle.mk,
                                  user := some who }
                ⟨s, .success who, [.exchangeCalled auth_code, .userFetchCalled]⟩

/-- Resolve a chain of `dict.get` lookups through the secrets. -/
def getPath : PyVal → List String → Option PyVal
  | v, [] => some v
  | v, p :: ps =>
      match v.lookup p with
      | some next => getPath next ps
      | none => none

/-- What the JWT flow reports. -/
inductive JwtOutcome where
  | configMissing
  | badStructure
  | authFailed
  | success (who : Identity)
deriving DecidableEq, Repr

/-- The session writes of lines 252-259 on JWT success: set
`authenticated`, `client`, `user` and store the JWT config in
`auth_credentials`. -/
def commitJwt (s : SessionState) (who : Identity) (config : PyVal) : SessionState :=
  let s := { s with authenticated := true,
                    client := some ClientHandle.mk,
                    user := some who }
  let cred := match s.auth_credentials with
    | some c => c
    | none => []
  { s with auth_credentials := some (dictSet cred "jwt_config" config) }

/-- `jwt_authentication_secrets` (lines 214-267), the body run when the
button is clicked: validate presence of the `box_jwt` section, check its
structure (`boxAppSettings` and `enterpriseID` keys), build the JWT auth
object, fetch the service account and commit the session plus the stored
`jwt_config`.  Exceptions are caught at line 265, and nothing has been
written to the session before the writes of lines 252-259. -/
def jwt_authentication_secrets (secrets : PyVal) (oracle : BoxOracle)
    (s : SessionState) : SessionState × JwtOutcome :=
  if !(check_secrets_available secrets [.key "box_jwt"]).1 then
    (s, .configMissing)
  else
    match secrets.lookup "box_jwt" with
    | none => (s, .configMissing)
    | some config =>
        if !(config.hasKey "boxAppSettings") || !(config.hasKey "enterpriseID") then
          (s, .badStructure)
        else
          match oracle.jwtFromSettings with
          | .error _ => (s, .authFailed)
          | .ok _ =>
              match oracle.fetchUser with
              | .error _ => (s, .authFailed)
              | .ok who => (commitJwt s who config, .success who)

/-- What the developer-token flow reports. -/
inductive DevOutcome where
  | configMissing
  | authFailed
  | success (who : Identity)
deriving DecidableEq, Repr

/-- The session writes of lines 302-312 on developer-token success: set
`authenticated`, `client`, `user` and store client id, client secret and
the developer token (as the stored access token) in `auth_credentials`. -/
def commitDev (s : SessionState) (who : Identity) (cid csec dtok : PyVal) :
    SessionState :=
  let s := { s with authenticated := true,
                    client := some ClientHandle.mk,
                    user := some who }
  let cred := match s.auth_credentials with
    | some c => c
    | none => []
  let cred := dictSet cred "client_id" cid
  let cred := dictSet cred "client_secret" csec
  let cred := dictSet cred "access_token" dtok
  { s with auth_credentials := some cred }

/-- `developer_token_authentication_secrets` (lines 269-320), the body run
when the button is clicked: validate the `box_dev` keys, build an OAuth2
object around the static developer token, fetch the current user and
commit the session plus the stored credentials.  The three secret reads
of lines 281-283 always succeed once the validator has passed (the
unreachable fallback reports the configuration as missing). -/
def developer_token_authentication_secrets (secrets : PyVal) (oracle : BoxOracle)
    (s : SessionState) : SessionState × DevOutcome :=
  if !(check_secrets_available secrets
      [.sec "box_dev" ["client_id", "client_secret", "developer_token"]]).1 then
    (s, .configMissing)
  else
    match getPath secrets ["box_dev", "client_id"],
          getPath secrets ["box_dev", "client_secret"],
          getPath secrets ["box_dev", "developer_token"] with
    | some cid, some csec, some dtok =>
        match oracle.fetchUser with
        | .error _ => (s, .authFailed)
        | .ok who => (commitDev s who cid csec dtok, .success who)
    | _, _, _ => (s, .configMissing)

/-- What issuing the authorization URL reports. -/
inductive BeginOutcome where
  | configMissing
  | ok
deriving DecidableEq, Repr

/-- Lines 130-167 of `oauth2_authentication_secrets` (before the URL is
pasted): validate the `box_oauth` keys, build the OAuth2 object, obtain
the authorization URL and CSRF token from the SDK (the token is the
oracle argument `csrf`) and store both in the session. -/
def oauth2_begin_authorization (secrets : PyVal) (csrf : String)
    (s : SessionState) : SessionState × BeginOutcome :=
  if !(check_secrets_available secrets
      [.sec "box_oauth" ["client_id", "client_secret"]]).1 then
    (s, .configMissing)
  else
    ({ s with csrf_token := some csrf, oauth := true }, .ok)

/-- The logout branch of `authenticate` (lines 58-66): only offered while
`authenticated` and `client` are truthy; clears `authenticated`,
`client`, `user` and pops `auth_credentials` — and nothing else. -/
def logoutStep (s : SessionState) : SessionState :=
  if s.authenticated && s.client.isSome then
    { s with authenticated := false, client := none, user := none,
             auth_credentials := none }
  else s

/-- One user interaction with the authentication page: which flow runs
and the external outcomes it meets. -/
inductive Step where
  | oauthBegin (secrets : PyVal) (csrf : String)
  | oauthCallback (secrets : PyVal) (oracle : BoxOracle)
      (params : List (String × String))
  | jwtAuth (secrets : PyVal) (oracle : BoxOracle)
  | devAuth (secrets : PyVal) (oracle : BoxOracle)
  | logout

/-- `authenticate` dispatch semantics: while the session is authenticated
(and holds a client) the only available action is logout (lines 57-67);
otherwise the selected flow runs. -/
def runStep (s : SessionState) : Step → SessionState
  | .logout => logoutStep s
  | .oauthBegin secrets csrf =>
      if s.authenticated && s.client.isSome then s
      else (oauth2_begin_authorization secrets csrf s).1
  | .oauthCallback secrets oracle params =>
      if s.authenticated && s.client.isSome then s
      else (oauth2_complete_authorization secrets oracle params s).session
  | .jwtAuth secrets oracle =>
      if s.authenticated && s.client.isSome then s
      else (jwt_authentication_secrets secrets oracle s).1
  | .devAuth secrets oracle =>
      if s.authenticated && s.client.isSome then s
      else (developer_token_authentication_secrets secrets oracle s).1

/-- The session states the authentication page can reach from a fresh
session. -/
inductive Reachable : SessionState → Prop where
  | init : Reachable initialSession
  | step (s : SessionState) (st : Step) : Reachable s → Reachable (runStep s st)

/-- The credential dict stored in the session holds key `k`. -/
def credHasKey (s : SessionState) (k : String) : Bool :=
  match s.auth_credentials with
  | some cred => cred.any (fun e => e.1 == k)
  | none => false

/-- Token material (or the equivalent static token / JWT config) is
recorded in the session: a session-level access token, a stored
credential access token, or a stored JWT config. -/
def tokenMaterialPresent (s : SessionState) : Bool :=
  s.access_token.isSome || credHasKey s "access_token" || credHasKey s "jwt_config"

/-! ## Specification-side definitions (for refinement statements)

These follow the spec's words, independently of the source translation
above: resolution of a dotted key path is walking the secret mapping
level by level, and an identifier is unresolved when that walk fails. -/

/-- Modelled from the spec: resolve a key path by walking the secret
mapping level by level; `none` when a level is not a mapping or lacks
the part. -/
def resolvePath : PyVal → List String → Option PyVal
  | v, [] => some v
  | .dict es, p :: ps =>
      match es.find? (fun e => e.1 = p) with
      | some e => resolvePath e.2 ps
      | none => none
  | .str _, _ :: _ => none

/-- Modelled from the spec: the identifiers of the unresolved sections
and key paths of one requirement — the section identifier when the
section is absent, otherwise the key-path identifiers whose walk from
the section value fails (claim reading of "cannot be resolved by walking
the secret mapping"). -/
def specUnresolvedIds (secrets : PyVal) : ReqSection → List String
  | .key name => if (secrets.lookup name).isSome then [] else [name]
  | .sec name keys =>
      match secrets.lookup name with
      | none => [sectionId name]
      | some v =>
          (keys.filter (fun k => (resolvePath v (splitDots k)).isNone)).map (keyId name)

/-- Modelled from the spec as amended: a section contributes its section
identifier when it is absent or Python-falsy (empty), and otherwise the
key-path identifiers whose level-by-level walk fails. -/
def specMissingAmended (secrets : PyVal) : ReqSection → List String
  | .key name => if optTruthy (secrets.lookup name) then [] else [name]
  | .sec name keys =>
      match secrets.lookup name with
      | none => [sectionId name]
      | some v =>
          if v.truthy then
            (keys.filter (fun k => (resolvePath v (splitDots k)).isNone)).map (keyId name)
          else [sectionId name]

/-! ## Concrete demonstration data -/

/-- A well-formed `box_oauth` secrets source. -/
def demoSecrets : PyVal :=
  .dict [("box_oauth", .dict [("client_id", .str "c1"), ("client_secret", .str "s1")])]

/-- An oracle whose remote calls all succeed. -/
def demoOracle : BoxOracle :=
  { exchange := fun _ => .ok ("AT1", some "RT1"),
    fetchUser := .ok ⟨"Alice"⟩,
    jwtFromSettings := .ok () }

/-- An oracle whose token exchange succeeds but whose identity fetch
raises. -/
def badUserOracle : BoxOracle :=
  { exchange := fun _ => .ok ("AT1", none),
    fetchUser := .error "connection reset",
    jwtFromSettings := .ok () }

/-- A session that has just issued an authorization URL with CSRF token
`T1` (the state after `oauth2_begin_authorization`). -/
def pendingSession : SessionState :=
  { initialSession with csrf_token := some "T1", oauth := true }

/-- The session after a completed OAuth authorization reached through the
step relation. -/
def authedSession : SessionState :=
  runStep (runStep initialSession (.oauthBegin demoSecrets "T1"))
    (.oauthCallback demoSecrets demoOracle [("code", "ABC"), ("state", "T1")])

/-- The session after logging out of `authedSession`. -/
def loggedOutSession : SessionState :=
  runStep authedSession .logout

/-! ## Helper lemmas -/

theorem foldl_emits {α β : Type} (h : List β → α → List β) (g : α → List β)
    (hh : ∀ acc x, h acc x = acc ++ g x) :
    ∀ (l : List α) (acc : List β), l.foldl h acc = acc ++ l.foldl h [] := by
  intro l
  induction l with
  | nil => intro acc; simp
  | cons x xs ih =>
      intro acc
      simp only [List.foldl_cons]
      rw [hh acc x, hh [] x, ih (acc ++ g x), ih ([] ++ g x)]
      simp [List.append_assoc]

theorem foldl_emits_eq_flatMap {α β : Type} (h : List β → α → List β) (g : α → List β)
    (hh : ∀ acc x, h acc x = acc ++ g x) :
    ∀ (l : List α), l.foldl h [] = l.flatMap g := by
  intro l
  induction l with
  | nil => simp
  | cons x xs ih =>
      simp only [List.foldl_cons, List.flatMap_cons]
      rw [hh [] x, foldl_emits h g hh xs ([] ++ g x), ih]
      simp

theorem check_secrets_available_eq (secrets : PyVal) (required : List ReqSection) :
    check_secrets_available secrets required =
      ((required.flatMap (sectionMissing secrets)).isEmpty,
        required.flatMap (sectionMissing secrets)) := by
  unfold check_secrets_available
  rw [foldl_emits_eq_flatMap _ (sectionMissing secrets) (fun acc x => rfl)]
  by_cases h : required.flatMap (sectionMissing secrets) = []
  · simp [h]
  · simp [h]

theorem walkPath_eq_resolvePath (path : List String) :
    ∀ (v : PyVal), walkPath v path = (resolvePath v path).isSome := by
  induction path with
  | nil => intro v; cases v <;> simp [walkPath, resolvePath]
  | cons p ps ih =>
      intro v
      cases v with
      | str s => simp [walkPath, resolvePath]
      | dict es =>
          simp only [walkPath, resolvePath]
          cases es.find? (fun e => e.1 = p) with
          | none => simp
          | some e => exact ih e.2

theorem walkPathE_eq (path : List String) :
    ∀ (v : PyVal), walkPathE v path = .ok (walkPath v path) := by
  induction path with
  | nil => intro v; cases v <;> rfl
  | cons p ps ih =>
      intro v
      cases v with
      | str s => rfl
      | dict es =>
          simp only [walkPathE, walkPath, PyVal.hasKey, PyVal.index]
          cases h : es.find? (fun e => e.1 = p) with
          | none =>
              have : es.any (fun e => e.1 = p) = false := by
                rw [List.any_eq_false]
                intro x hx
                have := List.find?_eq_none.mp h x hx
                simpa using this
              simp [this]
          | some e =>
              have hp := List.find?_some h
              have hm : e ∈ es := List.mem_of_find?_eq_some h
              have : es.any (fun e => e.1 = p) = true := by
                rw [List.any_eq_true]
                exact ⟨e, hm, hp⟩
              simp [this, ih e.2]

theorem checkKeysE_eq (v : PyVal) (name : String) :
    ∀ (ks : List String) (missing : List String),
      checkKeysE v name ks missing =
        .ok (ks.foldl (fun acc k =>
          if walkPath v (splitDots k) then acc else acc ++ [keyId name k]) missing) := by
  intro ks
  induction ks with
  | nil => intro missing; rfl
  | cons k ks ih =>
      intro missing
      simp only [checkKeysE, walkPathE_eq, List.foldl_cons]
      cases h : walkPath v (splitDots k) <;> simp [h, ih]

theorem checkSectionsE_eq (secrets : PyVal) :
    ∀ (req : List ReqSection) (missing : List String),
      checkSectionsE secrets req missing =
        .ok (req.foldl (fun acc sec => acc ++ sectionMissing secrets sec) missing) := by
  intro req
  induction req with
  | nil => intro missing; simp [checkSectionsE]
  | cons sec rest ih =>
      intro missing
      cases sec with
      | key name =>
          have hk : sectionMissing secrets (ReqSection.key name) =
              if optTruthy (secrets.lookup name) then [] else [name] := rfl
          simp only [checkSectionsE, List.foldl_cons, hk]
          cases h : optTruthy (secrets.lookup name) <;> simp [h, ih]
      | sec name keys =>
          have hk : sectionMissing secrets (ReqSection.sec name keys) =
              match secrets.lookup name with
              | none => [sectionId name]
              | some v =>
                  if v.truthy then
                    keys.foldl (fun acc key =>
                      if walkPath v (splitDots key) then acc
                      else acc ++ [keyId name key]) []
                  else [sectionId name] := rfl
          simp only [checkSectionsE, List.foldl_cons, hk]
          cases hl : secrets.lookup name with
          | none => simp [ih]
          | some v =>
              cases ht : v.truthy with
              | false => simp [ht, ih]
              | true =>
                  simp only [ht, if_true, checkKeysE_eq, ih]
                  rw [foldl_emits
                    (fun acc k => if walkPath v (splitDots k) then acc else acc ++ [keyId name k])
                    (fun k => if walkPath v (splitDots k) then [] else [keyId name k])
                    (fun acc k => by cases h : walkPath v (splitDots k) <;> simp [h])
                    keys missing]

theorem flatMap_guard_eq_filter_map {α β : Type} (g : α → Option β) (f : α → String) :
    ∀ (l : List α),
      (l.flatMap fun k => if (g k).isSome then [] else [f k]) =
        (l.filter (fun k => (g k).isNone)).map f := by
  intro l
  induction l with
  | nil => rfl
  | cons x xs ih =>
      simp only [List.flatMap_cons, List.filter_cons]
      cases h : g x <;> simp [h, ih]

theorem sectionMissing_eq_specAmended (secrets : PyVal) (sec : ReqSection) :
    sectionMissing secrets sec = specMissingAmended secrets sec := by
  cases sec with
  | key name => rfl
  | sec name keys =>
      simp only [sectionMissing, specMissingAmended]
      cases hl : secrets.lookup name with
      | none => rfl
      | some v =>
          cases ht : v.truthy with
          | false => simp [ht]
          | true =>
              simp only [ht, if_true]
              rw [foldl_emits_eq_flatMap
                (fun acc k => if walkPath v (splitDots k) then acc else acc ++ [keyId name k])
                (fun k => if walkPath v (splitDots k) then [] else [keyId name k])
                (fun acc k => by cases h : walkPath v (splitDots k) <;> simp [h])
                keys]
              simp only [walkPath_eq_resolvePath]
              exact flatMap_guard_eq_filter_map (fun k => resolvePath v (splitDots k))
                (keyId name) keys

theorem find?_map_set_self (k : String) (v : PyVal) :
    ∀ (es : List (String × PyVal)), es.any (fun e => e.1 == k) = true →
      (es.map (fun e => if e.1 == k then (k, v) else e)).find?
          (fun e => e.1 == k) = some (k, v) := by
  intro es
  induction es with
  | nil => intro h; simp at h
  | cons e es ih =>
      intro h
      by_cases he : e.1 = k
      · simp only [List.map_cons]
        rw [List.find?_cons_of_pos]
        · simp [he]
        · simp [he]
      · have hb : (e.1 == k) = false := by simpa using he
        have h2 : es.any (fun e => e.1 == k) = true := by
          simpa [hb] using h
        simp only [List.map_cons]
        rw [List.find?_cons_of_neg]
        · exact ih h2
        · simp [he]

theorem find?_map_set_ne (k k2 : String) (v : PyVal) (hne : k2 ≠ k) :
    ∀ (es : List (String × PyVal)),
      (es.map (fun e => if e.1 == k then (k, v) else e)).find?
          (fun e => e.1 == k2) = es.find? (fun e => e.1 == k2) := by
  intro es
  induction es with
  | nil => rfl
  | cons e es ih =>
      by_cases h2 : e.1 = k2
      · have hek : ¬ e.1 = k := by rw [h2]; exact hne
        simp only [List.map_cons]
        rw [List.find?_cons_of_pos, List.find?_cons_of_pos]
        · simp [hek]
        · simp [h2]
        · simp [h2, hne]
      · by_cases he : e.1 = k
        · simp only [List.map_cons]
          rw [List.find?_cons_of_neg, List.find?_cons_of_neg]
          · exact ih
          · simp [h2]
          · simp [he, Ne.symm hne]
        · simp only [List.map_cons]
          rw [List.find?_cons_of_neg, List.find?_cons_of_neg]
          · exact ih
          · simp [h2]
          · simp [he, h2]

theorem find?_append_set_self (k : String) (v : PyVal) :
    ∀ (es : List (String × PyVal)), es.any (fun e => e.1 == k) = false →
      (es ++ [(k, v)]).find? (fun e => e.1 == k) = some (k, v) := by
  intro es
  induction es with
  | nil =>
      intro _
      rw [List.nil_append, List.find?_cons_of_pos]
      simp
  | cons e es ih =>
      intro h
      have hb : (e.1 == k) = false := by
        have := List.any_eq_false.mp h e (by simp)
        simpa using this
      have h2 : es.any (fun e => e.1 == k) = false := by
        rw [List.any_eq_false] at h ⊢
        intro x hx
        exact h x (by simp [hx])
      rw [List.cons_append, List.find?_cons_of_neg]
      · exact ih h2
      · simp only [hb]; exact Bool.false_ne_true

theorem find?_append_set_ne (k k2 : String) (v : PyVal) (hne : k2 ≠ k) :
    ∀ (es : List (String × PyVal)),
      (es ++ [(k, v)]).find? (fun e => e.1 == k2) = es.find? (fun e => e.1 == k2) := by
  intro es
  induction es with
  | nil =>
      rw [List.nil_append, List.find?_cons_of_neg]
      simp [Ne.symm hne]
  | cons e es ih =>
      by_cases h2 : e.1 = k2
      · rw [List.cons_append, List.find?_cons_of_pos, List.find?_cons_of_pos]
        · simp [h2]
        · simp [h2]
      · rw [List.cons_append, List.find?_cons_of_neg, List.find?_cons_of_neg]
        · exact ih
        · simp [h2]
        · simp [h2]

theorem dictSet_eq_map (k : String) (v : PyVal) (es : List (String × PyVal))
    (ha : es.any (fun e => e.1 == k) = true) :
    dictSet es k v = es.map (fun e => if e.1 == k then (k, v) else e) := by
  rw [dictSet, if_pos ha]

theorem dictSet_eq_append (k : String) (v : PyVal) (es : List (String × PyVal))
    (ha : es.any (fun e => e.1 == k) = false) :
    dictSet es k v = es ++ [(k, v)] := by
  rw [dictSet, if_neg]
  simp [ha]

theorem dictGet_dictSet_self (k : String) (v : PyVal) (es : List (String × PyVal)) :
    dictGet (dictSet es k v) k = some v := by
  cases ha : es.any (fun e => e.1 == k) with
  | true =>
      rw [dictSet_eq_map k v es ha, dictGet, find?_map_set_self k v es ha]
      rfl
  | false =>
      rw [dictSet_eq_append k v es ha, dictGet, find?_append_set_self k v es ha]
      rfl

theorem dictGet_dictSet_ne (k k2 : String) (v : PyVal) (hne : k2 ≠ k)
    (es : List (String × PyVal)) :
    dictGet (dictSet es k v) k2 = dictGet es k2 := by
  cases ha : es.any (fun e => e.1 == k) with
  | true =>
      rw [dictSet_eq_map k v es ha, dictGet, find?_map_set_ne k k2 v hne es, dictGet]
  | false =>
      rw [dictSet_eq_append k v es ha, dictGet, find?_append_set_ne k k2 v hne es, dictGet]

theorem any_of_dictGet_some (es : List (String × PyVal)) (k : String) (v : PyVal)
    (h : dictGet es k = some v) : es.any (fun e => e.1 == k) = true := by
  rw [dictGet] at h
  cases hf : es.find? (fun e => e.1 == k) with
  | none => rw [hf] at h; simp at h
  | some e =>
      rw [List.any_eq_true]
      have hp := List.find?_some hf
      exact ⟨e, List.mem_of_find?_eq_some hf, hp⟩

theorem firstParam_ne_empty (params : List (String × String)) (n v : String)
    (h : firstParam params n = some v) : v.isEmpty = false := by
  rw [firstParam] at h
  cases hf : (params.filter (fun p => p.1 == n && !(p.2.isEmpty))).head? with
  | none => rw [hf] at h; simp at h
  | some p =>
      rw [hf] at h
      simp only [Option.map] at h
      have hmem : p ∈ params.filter (fun p => p.1 == n && !(p.2.isEmpty)) :=
        List.mem_of_mem_head? hf
      have hp := List.of_mem_filter hmem
      have : (!(p.2.isEmpty)) = true := by
        simp only [Bool.and_eq_true] at hp
        exact hp.2
      rw [← Option.some_inj.mp h]
      simpa using this

theorem csrfMismatch_of_absent_or_ne (state csrf : Option String)
    (hne : ∀ v, state = some v → v.isEmpty = false)
    (h : state = none ∨ state ≠ csrf) :
    csrfMismatch state csrf = true := by
  cases state with
  | none => rfl
  | some x =>
      rcases h with h | h
      · exact absurd h (by simp)
      · have : (some x == csrf) = false := by
          rw [beq_eq_false_iff_ne]
          exact h
        simp [csrfMismatch, this]

theorem csrfMismatch_self_false (x : String) (hx : x.isEmpty = false) :
    csrfMismatch (some x) (some x) = false := by
  simp [csrfMismatch, hx]

theorem store_tokens_frame (secrets : PyVal) (s : SessionState) (a : String)
    (r : Option String) :
    ((store_tokens secrets s a r).1).authenticated = s.authenticated ∧
    ((store_tokens secrets s a r).1).client = s.client ∧
    ((store_tokens secrets s a r).1).user = s.user ∧
    ((store_tokens secrets s a r).1).csrf_token = s.csrf_token ∧
    ((store_tokens secrets s a r).1).oauth = s.oauth ∧
    ((store_tokens secrets s a r).1).access_token = some a := by
  rw [store_tokens]
  cases hr : optStrTruthy r <;> simp [hr]

theorem store_tokens_returns (secrets : PyVal) (s : SessionState) (a : String)
    (r : Option String) :
    (store_tokens secrets s a r).2 = (a, r) := by
  rw [store_tokens]

theorem cb_noCode (secrets : PyVal) (oracle : BoxOracle)
    (params : List (String × String)) (s : SessionState)
    (h : firstParam params "code" = none) :
    oauth2_complete_authorization secrets oracle params s = ⟨s, .noCode, []⟩ := by
  simp only [oauth2_complete_authorization, h]

theorem cb_mismatch (secrets : PyVal) (oracle : BoxOracle)
    (params : List (String × String)) (s : SessionState) (c : String)
    (h1 : firstParam params "code" = some c)
    (h2 : csrfMismatch (firstParam params "state") s.csrf_token = true) :
    oauth2_complete_authorization secrets oracle params s = ⟨s, .csrfMismatch, []⟩ := by
  simp only [oauth2_complete_authorization, h1, h2, if_true]

/-- The session-commit of lines 195-198 on top of the tokens already
stored by the `store_tokens` callback: set `authenticated`, `client` and
`user`. -/
def commitOAuth (secrets : PyVal) (s : SessionState) (a : String)
    (r : Option String) (who : Identity) : SessionState :=
  let st := (store_tokens secrets s a r).1
  { st with authenticated := true,
            client := some ClientHandle.mk,
            user := some who }

theorem cb_success (secrets : PyVal) (oracle : BoxOracle)
    (params : List (String × String)) (s : SessionState) (c a : String)
    (r : Option String) (who : Identity)
    (h1 : firstParam params "code" = some c)
    (hm : csrfMismatch (firstParam params "state") s.csrf_token = false)
    (hx : oracle.exchange c = .ok (a, r))
    (hu : oracle.fetchUser = .ok who) :
    oauth2_complete_authorization secrets oracle params s =
      ⟨commitOAuth secrets s a r who, .success who,
        [.exchangeCalled c, .userFetchCalled]⟩ := by
  simp only [oauth2_complete_authorization, h1, hm, Bool.false_eq_true, if_false, hx, hu,
    commitOAuth]

theorem cb_exchangeError (secrets : PyVal) (oracle : BoxOracle)
    (params : List (String × String)) (s : SessionState) (c err : String)
    (h1 : firstParam params "code" = some c)
    (hm : csrfMismatch (firstParam params "state") s.csrf_token = false)
    (hx : oracle.exchange c = .error err) :
    oauth2_complete_authorization secrets oracle params s =
      ⟨s, .exchangeError, [.exchangeCalled c]⟩ := by
  simp only [oauth2_complete_authorization, h1, hm, Bool.false_eq_true, if_false, hx]

theorem cb_identityError (secrets : PyVal) (oracle : BoxOracle)
    (params : List (String × String)) (s : SessionState) (c a err : String)
    (r : Option String)
    (h1 : firstParam params "code" = some c)
    (hm : csrfMismatch (firstParam params "state") s.csrf_token = false)
    (hx : oracle.exchange c = .ok (a, r))
    (hu : oracle.fetchUser = .error err) :
    oauth2_complete_authorization secrets oracle params s =
      ⟨(store_tokens secrets s a r).1, .identityError,
        [.exchangeCalled c, .userFetchCalled]⟩ := by
  simp only [oauth2_complete_authorization, h1, hm, Bool.false_eq_true, if_false, hx, hu]

theorem jwt_cases (secrets : PyVal) (oracle : BoxOracle) (s : SessionState) :
    (jwt_authentication_secrets secrets oracle s).1 = s ∨
    ∃ who config, jwt_authentication_secrets secrets oracle s =
      (commitJwt s who config, .success who) := by
  unfold jwt_authentication_secrets
  split
  · exact Or.inl rfl
  · split
    · exact Or.inl rfl
    · split
      · exact Or.inl rfl
      · split
        · exact Or.inl rfl
        · split
          · exact Or.inl rfl
          · exact Or.inr ⟨_, _, rfl⟩

theorem dev_cases (secrets : PyVal) (oracle : BoxOracle) (s : SessionState) :
    (developer_token_authentication_secrets secrets oracle s).1 = s ∨
    ∃ who cid csec dtok, developer_token_authentication_secrets secrets oracle s =
      (commitDev s who cid csec dtok, .success who) := by
  unfold developer_token_authentication_secrets
  split
  · exact Or.inl rfl
  · split
    · split
      · exact Or.inl rfl
      · exact Or.inr ⟨_, _, _, _, rfl⟩
    · exact Or.inl rfl

theorem begin_cases (secrets : PyVal) (csrf : String) (s : SessionState) :
    (oauth2_begin_authorization secrets csrf s).1 = s ∨
    (oauth2_begin_authorization secrets csrf s).1 =
      { s with csrf_token := some csrf, oauth := true } := by
  unfold oauth2_begin_authorization
  split
  · exact Or.inl rfl
  · exact Or.inr rfl

theorem cb_session_cases (secrets : PyVal) (oracle : BoxOracle)
    (params : List (String × String)) (s : SessionState) :
    (oauth2_complete_authorization secrets oracle params s).session = s ∨
    (∃ a rt, (oauth2_complete_authorization secrets oracle params s).session =
      (store_tokens secrets s a rt).1) ∨
    (∃ a rt who, (oauth2_complete_authorization secrets oracle params s).session =
      commitOAuth secrets s a rt who) := by
  cases hcode : firstParam params "code" with
  | none => exact Or.inl (by rw [cb_noCode secrets oracle params s hcode])
  | some c =>
      cases hm : csrfMismatch (firstParam params "state") s.csrf_token with
      | true => exact Or.inl (by rw [cb_mismatch secrets oracle params s c hcode hm])
      | false =>
          cases hx : oracle.exchange c with
          | error e =>
              exact Or.inl (by rw [cb_exchangeError secrets oracle params s c e hcode hm hx])
          | ok pr =>
              cases hu : oracle.fetchUser with
              | error e =>
                  refine Or.inr (Or.inl ⟨pr.1, pr.2, ?_⟩)
                  rw [cb_identityError secrets oracle params s c pr.1 e pr.2 hcode hm
                    (by rw [hx])
                    hu]
              | ok who =>
                  refine Or.inr (Or.inr ⟨pr.1, pr.2, who, ?_⟩)
                  rw [cb_success secrets oracle params s c pr.1 pr.2 who hcode hm
                    (by rw [hx])
                    hu]

/-- The strengthened inductive invariant: `authenticated` tracks the
presence of the client handle and of the identity exactly, and implies
recorded token material. -/
def sessionAuthInv (s : SessionState) : Prop :=
  s.authenticated = s.client.isSome ∧ s.authenticated = s.user.isSome ∧
    (s.authenticated = true → tokenMaterialPresent s = true)

theorem commitOAuth_access (secrets : PyVal) (s : SessionState) (a : String)
    (r : Option String) (who : Identity) :
    (commitOAuth secrets s a r who).access_token = some a := by
  show ((store_tokens secrets s a r).1).access_token = some a
  exact (store_tokens_frame secrets s a r).2.2.2.2.2

theorem invS_commitOAuth (secrets : PyVal) (s : SessionState) (a : String)
    (r : Option String) (who : Identity) :
    sessionAuthInv (commitOAuth secrets s a r who) := by
  refine ⟨rfl, rfl, fun _ => ?_⟩
  simp [tokenMaterialPresent, commitOAuth_access secrets s a r who]

theorem invS_commitJwt (s : SessionState) (who : Identity) (config : PyVal) :
    sessionAuthInv (commitJwt s who config) := by
  refine ⟨rfl, rfl, fun _ => ?_⟩
  have h := any_of_dictGet_some _ "jwt_config" config
    (dictGet_dictSet_self "jwt_config" config
      (match s.auth_credentials with | some c => c | none => []))
  simp only [tokenMaterialPresent, credHasKey, commitJwt]
  simp [h]

theorem invS_commitDev (s : SessionState) (who : Identity) (cid csec dtok : PyVal) :
    sessionAuthInv (commitDev s who cid csec dtok) := by
  refine ⟨rfl, rfl, fun _ => ?_⟩
  have h := any_of_dictGet_some _ "access_token" dtok
    (dictGet_dictSet_self "access_token" dtok
      (dictSet (dictSet (match s.auth_credentials with | some c => c | none => [])
        "client_id" cid) "client_secret" csec))
  simp only [tokenMaterialPresent, credHasKey, commitDev]
  simp [h]

theorem invS_store (secrets : PyVal) (s : SessionState) (a : String)
    (r : Option String) (h : sessionAuthInv s) :
    sessionAuthInv ((store_tokens secrets s a r).1) := by
  obtain ⟨f1, f2, f3, _, _, f6⟩ := store_tokens_frame secrets s a r
  refine ⟨?_, ?_, fun _ => ?_⟩
  · rw [f1, f2, h.1]
  · rw [f1, f3, h.2.1]
  · simp [tokenMaterialPresent, f6]

theorem invS_begin (s : SessionState) (csrf : String) (h : sessionAuthInv s) :
    sessionAuthInv { s with csrf_token := some csrf, oauth := true } := by
  obtain ⟨h1, h2, h3⟩ := h
  exact ⟨h1, h2, fun ha => by
    have := h3 ha
    simpa [tokenMaterialPresent, credHasKey] using this⟩

theorem invS_runStep (s : SessionState) (st : Step) (h : sessionAuthInv s) :
    sessionAuthInv (runStep s st) := by
  cases st with
  | logout =>
      simp only [runStep]
      unfold logoutStep
      split
      · simp [sessionAuthInv]
      · exact h
  | oauthBegin secrets csrf =>
      simp only [runStep]
      split
      · exact h
      · rcases begin_cases secrets csrf s with h1 | h1
        · rw [h1]; exact h
        · rw [h1]; exact invS_begin s csrf h
  | oauthCallback secrets oracle params =>
      simp only [runStep]
      split
      · exact h
      · rcases cb_session_cases secrets oracle params s with h1 | ⟨a, rt, h1⟩ | ⟨a, rt, who, h1⟩
        · rw [h1]; exact h
        · rw [h1]; exact invS_store secrets s a rt h
        · rw [h1]; exact invS_commitOAuth secrets s a rt who
  | jwtAuth secrets oracle =>
      simp only [runStep]
      split
      · exact h
      · rcases jwt_cases secrets oracle s with h1 | ⟨who, config, h1⟩
        · rw [h1]; exact h
        · rw [h1]; exact invS_commitJwt s who config
  | devAuth secrets oracle =>
      simp only [runStep]
      split
      · exact h
      · rcases dev_cases secrets oracle s with h1 | ⟨who, cid, csec, dtok, h1⟩
        · rw [h1]; exact h
        · rw [h1]; exact invS_commitDev s who cid csec dtok

theorem reachable_invS (s : SessionState) (h : Reachable s) : sessionAuthInv s := by
  induction h with
  | init => exact ⟨rfl, rfl, fun ha => by simp [initialSession] at ha⟩
  | step s st hs ih => exact invS_runStep s st ih

theorem check_missing_eq_specAmended (secrets : PyVal) (required : List ReqSection) :
    (check_secrets_available secrets required).2 =
      required.flatMap (specMissingAmended secrets) := by
  have hf : sectionMissing secrets = specMissingAmended secrets :=
    funext (sectionMissing_eq_specAmended secrets)
  rw [check_secrets_available_eq, hf]

/-! ## Claim theorems -/

/-- C1 (amended: restricted to callback URLs that do carry a `code`
parameter, since a URL without one is reported as a malformed callback
before the anti-forgery check runs): when the callback has a `code` and
its `state` is absent or differs from the pending anti-forgery token,
the attempt reports the CSRF mismatch error, the token-exchange
capability is never invoked (no events), and the session is unchanged —
in particular it is not marked authenticated. -/
theorem antiforgery_mismatch_rejected_without_exchange (secrets : PyVal)
    (oracle : BoxOracle) (params : List (String × String)) (s : SessionState)
    (c : String)
    (h1 : firstParam params "code" = some c)
    (h2 : firstParam params "state" = none ∨ firstParam params "state" ≠ s.csrf_token) :
    oauth2_complete_authorization secrets oracle params s = ⟨s, .csrfMismatch, []⟩ := by
  apply cb_mismatch secrets oracle params s c h1
  exact csrfMismatch_of_absent_or_ne _ _
    (fun v hv => firstParam_ne_empty params "state" v hv) h2

/-- Witness for C1's theorem at a concrete callback. -/
theorem antiforgery_mismatch_rejected_without_exchange_witness :
    oauth2_complete_authorization demoSecrets demoOracle
      [("code", "ABC"), ("state", "WRONG")] pendingSession =
      ⟨pendingSession, .csrfMismatch, []⟩ :=
  antiforgery_mismatch_rejected_without_exchange demoSecrets demoOracle
    [("code", "ABC"), ("state", "WRONG")] pendingSession "ABC" (by rfl)
    (Or.inr (by decide))

/-- C1 as stated is refuted: a callback URL whose `state` differs from
the pending token but which carries no `code` parameter is reported as
a missing authorization code (`MalformedCallback`), not as an
anti-forgery mismatch. -/
theorem antiforgery_claim_counterexample :
    firstParam [("state", "WRONG")] "state" = some "WRONG" ∧
    pendingSession.csrf_token = some "T1" ∧
    (some "WRONG" : Option String) ≠ some "T1" ∧
    oauth2_complete_authorization demoSecrets demoOracle [("state", "WRONG")]
      pendingSession = ⟨pendingSession, .noCode, []⟩ ∧
    CallbackOutcome.noCode ≠ CallbackOutcome.csrfMismatch := by
  exact ⟨rfl, rfl, by decide, rfl, by decide⟩

/-- C2 (amended: for every failed attempt of any strategy the session is
never marked authenticated and no client handle or identity is
committed — and for the JWT and developer-token strategies the session
is exactly unchanged; but in the OAuth flow token material already
written by the `store_tokens` callback during a successful exchange
persists when the subsequent identity fetch fails). -/
theorem failed_attempts_no_commit (secrets : PyVal) (oracle : BoxOracle)
    (s : SessionState) :
    (∀ params, (∀ who, (oauth2_complete_authorization secrets oracle params s).outcome ≠
        CallbackOutcome.success who) →
      ((oauth2_complete_authorization secrets oracle params s).session.authenticated =
          s.authenticated ∧
        (oauth2_complete_authorization secrets oracle params s).session.client = s.client ∧
        (oauth2_complete_authorization secrets oracle params s).session.user = s.user ∧
        (oauth2_complete_authorization secrets oracle params s).session.csrf_token =
          s.csrf_token)) ∧
    ((∀ who, (jwt_authentication_secrets secrets oracle s).2 ≠ JwtOutcome.success who) →
      (jwt_authentication_secrets secrets oracle s).1 = s) ∧
    ((∀ who, (developer_token_authentication_secrets secrets oracle s).2 ≠
        DevOutcome.success who) →
      (developer_token_authentication_secrets secrets oracle s).1 = s) := by
  refine ⟨?_, ?_, ?_⟩
  · intro params hfail
    cases hcode : firstParam params "code" with
    | none => rw [cb_noCode secrets oracle params s hcode]; exact ⟨rfl, rfl, rfl, rfl⟩
    | some c =>
        cases hm : csrfMismatch (firstParam params "state") s.csrf_token with
        | true => rw [cb_mismatch secrets oracle params s c hcode hm]; exact ⟨rfl, rfl, rfl, rfl⟩
        | false =>
            cases hx : oracle.exchange c with
            | error e =>
                rw [cb_exchangeError secrets oracle params s c e hcode hm hx]
                exact ⟨rfl, rfl, rfl, rfl⟩
            | ok pr =>
                cases hu : oracle.fetchUser with
                | error e =>
                    rw [cb_identityError secrets oracle params s c pr.1 e pr.2 hcode hm
                      (by rw [hx])
                      hu]
                    obtain ⟨f1, f2, f3, f4, _, _⟩ := store_tokens_frame secrets s pr.1 pr.2
                    exact ⟨f1, f2, f3, f4⟩
                | ok who =>
                    exfalso
                    apply hfail who
                    rw [cb_success secrets oracle params s c pr.1 pr.2 who hcode hm
                      (by rw [hx])
                      hu]
  · intro hfail
    rcases jwt_cases secrets oracle s with h1 | ⟨who, config, h1⟩
    · exact h1
    · exact absurd (by rw [h1]) (hfail who)
  · intro hfail
    rcases dev_cases secrets oracle s with h1 | ⟨who, cid, csec, dtok, h1⟩
    · exact h1
    · exact absurd (by rw [h1]) (hfail who)

/-- Witness for C2's theorem: a failed OAuth identity fetch and a JWT
attempt with no secrets, at concrete inputs. -/
theorem failed_attempts_no_commit_witness :
    ((oauth2_complete_authorization demoSecrets badUserOracle
        [("code", "ABC"), ("state", "T1")] pendingSession).session.authenticated =
        pendingSession.authenticated ∧
      (oauth2_complete_authorization demoSecrets badUserOracle
        [("code", "ABC"), ("state", "T1")] pendingSession).session.client =
        pendingSession.client ∧
      (oauth2_complete_authorization demoSecrets badUserOracle
        [("code", "ABC"), ("state", "T1")] pendingSession).session.user =
        pendingSession.user ∧
      (oauth2_complete_authorization demoSecrets badUserOracle
        [("code", "ABC"), ("state", "T1")] pendingSession).session.csrf_token =
        pendingSession.csrf_token) ∧
    (jwt_authentication_secrets (PyVal.dict []) demoOracle initialSession).1 =
      initialSession := by
  have h1 := failed_attempts_no_commit demoSecrets badUserOracle pendingSession
  have h2 := failed_attempts_no_commit (PyVal.dict []) demoOracle initialSession
  refine ⟨h1.1 [("code", "ABC"), ("state", "T1")] ?_, h2.2.1 ?_⟩
  · intro who hwho
    rw [show (oauth2_complete_authorization demoSecrets badUserOracle
      [("code", "ABC"), ("state", "T1")] pendingSession).outcome =
      CallbackOutcome.identityError from rfl] at hwho
    exact CallbackOutcome.noConfusion hwho
  · intro who hwho
    rw [show (jwt_authentication_secrets (PyVal.dict []) demoOracle initialSession).2 =
      JwtOutcome.configMissing from rfl] at hwho
    exact JwtOutcome.noConfusion hwho

/-- C2 as stated is refuted: after a failed attempt (token exchange
succeeded, identity fetch failed) the session is not as it was — the
access token obtained by the exchange has been recorded by the
`store_tokens` callback, although the session is not marked
authenticated. -/
theorem identity_failure_partial_state_counterexample :
    pendingSession.access_token = none ∧
    (oauth2_complete_authorization demoSecrets badUserOracle
      [("code", "ABC"), ("state", "T1")] pendingSession).outcome =
      CallbackOutcome.identityError ∧
    (oauth2_complete_authorization demoSecrets badUserOracle
      [("code", "ABC"), ("state", "T1")] pendingSession).session.access_token =
      some "AT1" ∧
    (oauth2_complete_authorization demoSecrets badUserOracle
      [("code", "ABC"), ("state", "T1")] pendingSession).session.authenticated = false := by
  exact ⟨rfl, rfl, rfl, rfl⟩

/-- C3 (amended: the validator fails not exactly when a key path is
unresolvable — a *present but Python-falsy* (empty) section is also
reported missing, under its section identifier, and when a section is
absent or falsy its individual key paths are not listed; with that
reading, `ok=false` iff the per-section missing identifiers are
non-empty and `missing` equals exactly their concatenation). -/
theorem validator_missing_characterization (secrets : PyVal)
    (required : List ReqSection) :
    ((check_secrets_available secrets required).1 = false ↔
      required.flatMap (specMissingAmended secrets) ≠ []) ∧
    (check_secrets_available secrets required).2 =
      required.flatMap (specMissingAmended secrets) := by
  refine ⟨?_, check_missing_eq_specAmended secrets required⟩
  have hf : sectionMissing secrets = specMissingAmended secrets :=
    funext (sectionMissing_eq_specAmended secrets)
  rw [check_secrets_available_eq, hf]
  cases required.flatMap (specMissingAmended secrets) <;> simp

/-- C3 as stated is refuted: with a required plain key `box` whose value
is a present but empty mapping, every required identifier resolves by
walking the secret mapping (the spec-side unresolved list is empty), yet
the validator returns `ok=false` with `box` in `missing`. -/
theorem validator_falsy_section_counterexample :
    ((PyVal.dict [("box", .dict [])]).lookup "box").isSome = true ∧
    specUnresolvedIds (.dict [("box", .dict [])]) (.key "box") = [] ∧
    check_secrets_available (.dict [("box", .dict [])]) [.key "box"] =
      (false, ["box"]) := by
  exact ⟨rfl, rfl, rfl⟩

/-- C4 (amended: on an anti-forgery mismatch the attempt is rejected and
the session — including the pending token — is left *unchanged*; the
pending token is NOT invalidated, so a later callback carrying the same
pending token is still accepted). -/
theorem mismatch_retains_pending_token (secrets : PyVal) (oracle : BoxOracle)
    (params params2 : List (String × String)) (s : SessionState)
    (c c2 t a : String) (r : Option String) (who : Identity)
    (h1 : firstParam params "code" = some c)
    (h2 : firstParam params "state" = none ∨ firstParam params "state" ≠ s.csrf_token)
    (h3 : firstParam params2 "code" = some c2)
    (h4 : firstParam params2 "state" = some t)
    (h5 : s.csrf_token = some t)
    (hx : oracle.exchange c2 = .ok (a, r))
    (hu : oracle.fetchUser = .ok who) :
    (oauth2_complete_authorization secrets oracle params s).session = s ∧
    (oauth2_complete_authorization secrets oracle params s).session.csrf_token =
      s.csrf_token ∧
    (oauth2_complete_authorization secrets oracle params s).outcome =
      CallbackOutcome.csrfMismatch ∧
    (oauth2_complete_authorization secrets oracle params2 s).outcome =
      CallbackOutcome.success who := by
  have hm : csrfMismatch (firstParam params "state") s.csrf_token = true :=
    csrfMismatch_of_absent_or_ne _ _
      (fun v hv => firstParam_ne_empty params "state" v hv) h2
  have hm2 : csrfMismatch (firstParam params2 "state") s.csrf_token = false := by
    rw [h4, h5]
    exact csrfMismatch_self_false t (firstParam_ne_empty params2 "state" t h4)
  rw [cb_mismatch secrets oracle params s c h1 hm,
    cb_success secrets oracle params2 s c2 a r who h3 hm2 hx hu]
  exact ⟨rfl, rfl, rfl, rfl⟩

/-- Witness for C4's theorem at a concrete pair of callbacks. -/
theorem mismatch_retains_pending_token_witness :
    (oauth2_complete_authorization demoSecrets demoOracle
      [("code", "ABC"), ("state", "WRONG")] pendingSession).session = pendingSession ∧
    (oauth2_complete_authorization demoSecrets demoOracle
      [("code", "ABC"), ("state", "WRONG")] pendingSession).session.csrf_token =
      pendingSession.csrf_token ∧
    (oauth2_complete_authorization demoSecrets demoOracle
      [("code", "ABC"), ("state", "WRONG")] pendingSession).outcome =
      CallbackOutcome.csrfMismatch ∧
    (oauth2_complete_authorization demoSecrets demoOracle
      [("code", "ABC"), ("state", "T1")] pendingSession).outcome =
      CallbackOutcome.success ⟨"Alice"⟩ :=
  mismatch_retains_pending_token demoSecrets demoOracle
    [("code", "ABC"), ("state", "WRONG")] [("code", "ABC"), ("state", "T1")]
    pendingSession "ABC" "ABC" "T1" "AT1" (some "RT1") ⟨"Alice"⟩
    (by rfl) (Or.inr (by decide)) (by rfl) (by rfl) rfl (by rfl) (by rfl)

/-- C4 as stated is refuted: after a mismatched callback the pending
anti-forgery token is still in the session, and a later callback
replaying that same pending token is accepted. -/
theorem mismatch_replay_accepted_counterexample :
    (oauth2_complete_authorization demoSecrets demoOracle
      [("code", "ABC"), ("state", "WRONG")] pendingSession).session.csrf_token =
      some "T1" ∧
    (oauth2_complete_authorization demoSecrets demoOracle
      [("code", "ABC"), ("state", "T1")] pendingSession).outcome =
      CallbackOutcome.success ⟨"Alice"⟩ ∧
    (oauth2_complete_authorization demoSecrets demoOracle
      [("code", "ABC"), ("state", "T1")] pendingSession).session.authenticated = true := by
  exact ⟨rfl, rfl, rfl⟩

/-- C5 (amended: on successful completion the commit sets status, the
identity and the client handle together — the token material having
been recorded by the `store_tokens` callback during the exchange — but
the pending anti-forgery token is NOT cleared: it and the stored oauth
object survive unchanged, and no session field beyond those written by
`store_tokens` and the three commit fields is modified). -/
theorem commit_sets_auth_fields_keeps_pending (secrets : PyVal) (oracle : BoxOracle)
    (params : List (String × String)) (s : SessionState) (c t a : String)
    (r : Option String) (who : Identity)
    (h1 : firstParam params "code" = some c)
    (h4 : firstParam params "state" = some t)
    (h5 : s.csrf_token = some t)
    (hx : oracle.exchange c = .ok (a, r))
    (hu : oracle.fetchUser = .ok who) :
    oauth2_complete_authorization secrets oracle params s =
      ⟨commitOAuth secrets s a r who, .success who,
        [.exchangeCalled c, .userFetchCalled]⟩ ∧
    (commitOAuth secrets s a r who).authenticated = true ∧
    (commitOAuth secrets s a r who).client = some ClientHandle.mk ∧
    (commitOAuth secrets s a r who).user = some who ∧
    (commitOAuth secrets s a r who).access_token = some a ∧
    (commitOAuth secrets s a r who).csrf_token = s.csrf_token ∧
    (commitOAuth secrets s a r who).oauth = s.oauth := by
  have hm : csrfMismatch (firstParam params "state") s.csrf_token = false := by
    rw [h4, h5]
    exact csrfMismatch_self_false t (firstParam_ne_empty params "state" t h4)
  obtain ⟨_, _, _, f4, f5, _⟩ := store_tokens_frame secrets s a r
  exact ⟨cb_success secrets oracle params s c a r who h1 hm hx hu, rfl, rfl, rfl,
    commitOAuth_access secrets s a r who, f4, f5⟩

/-- Witness for C5's theorem at a concrete successful callback. -/
theorem commit_sets_auth_fields_keeps_pending_witness :
    oauth2_complete_authorization demoSecrets demoOracle
      [("code", "ABC"), ("state", "T1")] pendingSession =
      ⟨commitOAuth demoSecrets pendingSession "AT1" (some "RT1") ⟨"Alice"⟩,
        .success ⟨"Alice"⟩, [.exchangeCalled "ABC", .userFetchCalled]⟩ ∧
    (commitOAuth demoSecrets pendingSession "AT1" (some "RT1") ⟨"Alice"⟩).authenticated =
      true ∧
    (commitOAuth demoSecrets pendingSession "AT1" (some "RT1") ⟨"Alice"⟩).client =
      some ClientHandle.mk ∧
    (commitOAuth demoSecrets pendingSession "AT1" (some "RT1") ⟨"Alice"⟩).user =
      some ⟨"Alice"⟩ ∧
    (commitOAuth demoSecrets pendingSession "AT1" (some "RT1") ⟨"Alice"⟩).access_token =
      some "AT1" ∧
    (commitOAuth demoSecrets pendingSession "AT1" (some "RT1") ⟨"Alice"⟩).csrf_token =
      pendingSession.csrf_token ∧
    (commitOAuth demoSecrets pendingSession "AT1" (some "RT1") ⟨"Alice"⟩).oauth =
      pendingSession.oauth :=
  commit_sets_auth_fields_keeps_pending demoSecrets demoOracle
    [("code", "ABC"), ("state", "T1")] pendingSession "ABC" "T1" "AT1" (some "RT1")
    ⟨"Alice"⟩ (by rfl) (by rfl) rfl (by rfl) (by rfl)

/-- C5 as stated is refuted: the successful commit does NOT clear the
pending anti-forgery token — after the success the session still holds
`csrf_token = T1`. -/
theorem commit_keeps_pending_token_counterexample :
    (oauth2_complete_authorization demoSecrets demoOracle
      [("code", "ABC"), ("state", "T1")] pendingSession).outcome =
      CallbackOutcome.success ⟨"Alice"⟩ ∧
    (oauth2_complete_authorization demoSecrets demoOracle
      [("code", "ABC"), ("state", "T1")] pendingSession).session.csrf_token =
      some "T1" ∧
    (some "T1" : Option String) ≠ none := by
  exact ⟨rfl, rfl, by decide⟩

/-- C6: a callback URL with no `code` query parameter reports the
missing authorization code (`MalformedCallback`), invokes no remote
capability and leaves the session — including the pending anti-forgery
token — unchanged; a subsequent callback carrying a `code` and the same
pending `state` token still succeeds. -/
theorem missing_code_nonfatal_retry_succeeds (secrets : PyVal) (oracle : BoxOracle)
    (params : List (String × String)) (s : SessionState)
    (h : firstParam params "code" = none) :
    oauth2_complete_authorization secrets oracle params s = ⟨s, .noCode, []⟩ ∧
    (∀ params2 c2 t a r who, firstParam params2 "code" = some c2 →
      firstParam params2 "state" = some t → s.csrf_token = some t →
      oracle.exchange c2 = .ok (a, r) → oracle.fetchUser = .ok who →
      ((oauth2_complete_authorization secrets oracle params2 s).outcome =
          CallbackOutcome.success who ∧
        (oauth2_complete_authorization secrets oracle params2 s).session.authenticated =
          true)) := by
  refine ⟨cb_noCode secrets oracle params s h, ?_⟩
  intro params2 c2 t a r who h3 h4 h5 hx hu
  have hm2 : csrfMismatch (firstParam params2 "state") s.csrf_token = false := by
    rw [h4, h5]
    exact csrfMismatch_self_false t (firstParam_ne_empty params2 "state" t h4)
  rw [cb_success secrets oracle params2 s c2 a r who h3 hm2 hx hu]
  exact ⟨rfl, rfl⟩

/-- Witness for C6's theorem at a concrete pair of callbacks. -/
theorem missing_code_nonfatal_retry_succeeds_witness :
    oauth2_complete_authorization demoSecrets demoOracle [("state", "T1")]
      pendingSession = ⟨pendingSession, .noCode, []⟩ ∧
    (oauth2_complete_authorization demoSecrets demoOracle
      [("code", "ABC"), ("state", "T1")] pendingSession).outcome =
      CallbackOutcome.success ⟨"Alice"⟩ := by
  have h := missing_code_nonfatal_retry_succeeds demoSecrets demoOracle
    [("state", "T1")] pendingSession (by rfl)
  exact ⟨h.1, (h.2 [("code", "ABC"), ("state", "T1")] "ABC" "T1" "AT1" (some "RT1")
    ⟨"Alice"⟩ (by rfl) (by rfl) rfl (by rfl) (by rfl)).1⟩

/-- C7: in every session state reachable by the operations of the core
(authorization begin, callback processing, JWT and developer-token
authentication, logout), the session is marked authenticated exactly
when the identity, token material (session access token, stored
credential access token, or stored JWT config) and the client handle are
all present. -/
theorem authenticated_iff_credentials_present (s : SessionState) (h : Reachable s) :
    s.authenticated = true ↔
      (s.user.isSome = true ∧ tokenMaterialPresent s = true ∧
        s.client.isSome = true) := by
  obtain ⟨h1, h2, h3⟩ := reachable_invS s h
  constructor
  · intro ha
    exact ⟨h2 ▸ ha, h3 ha, h1 ▸ ha⟩
  · rintro ⟨hu, ht, hc⟩
    rw [h1, hc]

/-- Witness for C7's theorem at the initial session. -/
theorem authenticated_iff_credentials_present_witness :
    initialSession.authenticated = true ↔
      (initialSession.user.isSome = true ∧ tokenMaterialPresent initialSession = true ∧
        initialSession.client.isSome = true) :=
  authenticated_iff_credentials_present initialSession Reachable.init

/-- C8 (amended: logout clears exactly the authenticated flag, the
client handle, the identity and the stored `auth_credentials`; it does
NOT clear the session-level access and refresh tokens, the pending
anti-forgery token or the stored oauth object). -/
theorem logout_clears_exactly_auth_fields (s : SessionState)
    (h : s.authenticated = true) (h2 : s.client.isSome = true) :
    logoutStep s = { s with authenticated := false, client := none, user := none, auth_credentials := none } := by
  unfold logoutStep
  rw [if_pos]
  rw [h, h2]
  rfl

/-- Witness for C8's theorem at the authenticated session reached through
the step relation. -/
theorem logout_clears_exactly_auth_fields_witness :
    logoutStep authedSession = { authedSession with authenticated := false, client := none, user := none, auth_credentials := none } :=
  logout_clears_exactly_auth_fields authedSession (by decide) (by decide)

/-- C8 as stated is refuted: after logging out of a session
authenticated through the OAuth flow, the access token, refresh token
and pending anti-forgery token all remain in the session. -/
theorem logout_leftovers_counterexample :
    authedSession.authenticated = true ∧
    loggedOutSession.authenticated = false ∧
    loggedOutSession.access_token = some "AT1" ∧
    loggedOutSession.refresh_token = some "RT1" ∧
    loggedOutSession.csrf_token = some "T1" := by
  refine ⟨by decide, by decide, by decide, by decide, by decide⟩

/-- C9: the validator never raises, for every secret source including
malformed nested structure (the `Except`-instrumented rendition always
returns `ok`, equal to the total validator), and a failed walk of a
required key path under a present, truthy section is reported in the
`missing` list rather than as an error. -/
theorem validator_never_raises (secrets : PyVal) (required : List ReqSection) :
    check_secrets_availableE secrets required =
      .ok (check_secrets_available secrets required) ∧
    (∀ name keys k v, ReqSection.sec name keys ∈ required → k ∈ keys →
      secrets.lookup name = some v → v.truthy = true →
      walkPath v (splitDots k) = false →
      keyId name k ∈ (check_secrets_available secrets required).2) := by
  constructor
  · unfold check_secrets_availableE check_secrets_available
    rw [checkSectionsE_eq]
    cases h : (required.foldl (fun acc sec => acc ++ sectionMissing secrets sec) []).isEmpty <;>
      simp [h]
  · intro name keys k v hsec hk hv ht hw
    rw [check_missing_eq_specAmended secrets required]
    rw [List.mem_flatMap]
    refine ⟨ReqSection.sec name keys, hsec, ?_⟩
    rw [← sectionMissing_eq_specAmended]
    simp only [sectionMissing, hv, ht, if_true]
    rw [foldl_emits_eq_flatMap
      (fun acc key => if walkPath v (splitDots key) then acc else acc ++ [keyId name key])
      (fun key => if walkPath v (splitDots key) then [] else [keyId name key])
      (fun acc key => by cases hx : walkPath v (splitDots key) <;> simp [hx])
      keys]
    rw [List.mem_flatMap]
    exact ⟨k, hk, by rw [hw]; simp⟩

/-- Witness for C9's theorem at a concrete malformed source (a section
whose value is a plain string, so the nested walk fails). -/
theorem validator_never_raises_witness :
    check_secrets_availableE (.dict [("box", .str "x")]) [.sec "box" ["k"]] =
      .ok (check_secrets_available (.dict [("box", .str "x")]) [.sec "box" ["k"]]) ∧
    keyId "box" "k" ∈
      (check_secrets_available (.dict [("box", .str "x")]) [.sec "box" ["k"]]).2 := by
  have h := validator_never_raises (.dict [("box", .str "x")]) [.sec "box" ["k"]]
  exact ⟨h.1, h.2 "box" ["k"] "k" (.str "x") (by simp) (by simp) (by rfl) (by rfl)
    (by rfl)⟩

/-- C10 (amended: the token-storage callback always returns exactly the
pair it was given and records the access token in the session and the
credential store, for every secret source — a failing client id/secret
lookup is caught inside the callback — and it records the refresh token
when that token is present *and non-empty*). -/
theorem store_tokens_spec (secrets : PyVal) (s : SessionState) (a : String)
    (r : Option String) :
    (store_tokens secrets s a r).2 = (a, r) ∧
    ((store_tokens secrets s a r).1).access_token = some a ∧
    dictGet (((store_tokens secrets s a r).1).auth_credentials.getD []) "access_token" =
      some (.str a) ∧
    (optStrTruthy r = true →
      (((store_tokens secrets s a r).1).refresh_token = r ∧
        dictGet (((store_tokens secrets s a r).1).auth_credentials.getD [])
          "refresh_token" = some (.str (r.getD "")))) := by
  refine ⟨store_tokens_returns secrets s a r,
    (store_tokens_frame secrets s a r).2.2.2.2.2, ?_, ?_⟩
  · cases hr : optStrTruthy r with
    | false =>
        simp only [store_tokens, hr, Bool.false_eq_true, if_false, Option.getD_some]
        exact dictGet_dictSet_self "access_token" (.str a) _
    | true =>
        simp only [store_tokens, hr, if_true, Option.getD_some]
        rw [dictGet_dictSet_ne "refresh_token" "access_token" _ (by decide)]
        exact dictGet_dictSet_self "access_token" (.str a) _
  · intro hr
    constructor
    · simp only [store_tokens, hr, if_true]
    · simp only [store_tokens, hr, if_true, Option.getD_some]
      exact dictGet_dictSet_self "refresh_token" (.str (r.getD "")) _

/-- Witness for C10's theorem at a concrete non-empty token pair. -/
theorem store_tokens_spec_witness :
    (store_tokens demoSecrets initialSession "AT" (some "RT")).2 = ("AT", some "RT") ∧
    ((store_tokens demoSecrets initialSession "AT" (some "RT")).1).access_token =
      some "AT" ∧
    dictGet ((store_tokens demoSecrets initialSession "AT" (some "RT")).1.auth_credentials.getD []) "access_token" = some (.str "AT") ∧
    ((store_tokens demoSecrets initialSession "AT" (some "RT")).1).refresh_token =
      some "RT" ∧
    dictGet ((store_tokens demoSecrets initialSession "AT" (some "RT")).1.auth_credentials.getD []) "refresh_token" = some (.str "RT") := by
  have h := store_tokens_spec demoSecrets initialSession "AT" (some "RT")
  exact ⟨h.1, h.2.1, h.2.2.1, (h.2.2.2 rfl).1, (h.2.2.2 rfl).2⟩

/-- C10 as stated is refuted: a refresh token that is present but empty
(`some ""`) is returned in the pair but recorded neither at session
level nor in the credential store (Python truthiness drops it). -/
theorem empty_refresh_unrecorded_counterexample :
    (store_tokens demoSecrets initialSession "AT" (some "")).2 = ("AT", some "") ∧
    ((store_tokens demoSecrets initialSession "AT" (some "")).1).refresh_token = none ∧
    dictGet ((store_tokens demoSecrets initialSession "AT" (some "")).1.auth_credentials.getD []) "refresh_token" = none := by
  exact ⟨rfl, rfl, rfl⟩
